import Mathlib

/-!
Shallow embedding of `src/embed.py` from the `st-pipeline-cli` repository.

The program is a single linear pipeline (`embedding_query`): read a JSON
file of sentences, POST them to the HuggingFace feature-extraction
endpoint, convert the JSON response to a `pandas.DataFrame`, and write the
frame to a CSV file and to a SQLite table named `embeddings`.

Library calls (`json.load`, `requests.post`, `pandas.DataFrame.to_csv` /
`.to_sql`, `sqlite3.connect`) are modelled by total functions parametrised
on the outcome of the external world (file contents, HTTP outcome, write
success flags); the repository's own control flow — the `try`/`except`
ladders, the `finally` block with its `if conn:` test on a possibly
unbound local, and the order of the two sinks — is translated statement
by statement.  Python exceptions are values of `PyExn`; a function that
can raise returns `Except PyExn _`, and each `RunResult`/`DbResult`
carries an `outcome` field holding what the Python function raises to its
caller (`.ok ()` when it returns normally).
-/

/-- A parsed JSON value, as produced by Python's `json.load`: the result of
parsing is a tree of dicts, lists, strings, numbers, booleans and `None`.
Object keys are unique (Python dicts).  Numbers are modelled as integers;
the pipeline never inspects numeric values, only moves them around. -/
inductive JVal where
  | null : JVal
  | bool : Bool → JVal
  | num : Int → JVal
  | str : String → JVal
  | arr : List JVal → JVal
  | obj : List (String × JVal) → JVal
deriving Repr

/-- Python exceptions that the embedded fragment can raise. -/
inductive PyExn where
  /-- Exception `requests.exceptions.HTTPError`, raised by `Response.raise_for_status`
  and carrying the HTTP status code. -/
  | httpError (code : Nat) : PyExn
  /-- Exception `requests.exceptions.ConnectionError`: the host cannot be reached. -/
  | connectionError : PyExn
  /-- Exception `requests.exceptions.Timeout`. -/
  | timeout : PyExn
  /-- any other `requests.exceptions.RequestException`. -/
  | requestException : PyExn
  /-- Exception `OSError` from `open` on a missing or unreadable input file. -/
  | fileError (path : String) : PyExn
  /-- Exception `json.JSONDecodeError` from `json.load` on malformed JSON. -/
  | jsonDecodeError : PyExn
  /-- Exception `KeyError` from a dict subscript with an absent key. -/
  | keyError (k : String) : PyExn
  /-- Exception `TypeError` (e.g. subscripting a non-dict with a string key). -/
  | typeError : PyExn
  /-- Exception `ValueError` from the `pandas.DataFrame` constructor. -/
  | valueError : PyExn
  /-- Exception `OSError` from a failed CSV write (permissions, disk full, bad path). -/
  | oserror : PyExn
  /-- Exception `sqlite3.Error` from `sqlite3.connect` or `DataFrame.to_sql`. -/
  | sqliteError : PyExn
  /-- Exception `UnboundLocalError`: a local variable referenced before assignment. -/
  | unboundLocalError (name : String) : PyExn
deriving DecidableEq, Repr

/-- One cell of the assembled table: either a JSON value or an absent
value (pandas `NaN` gap, produced when rows of unequal length are
aligned). -/
inductive Cell where
  | val : JVal → Cell
  | na : Cell
deriving Repr

/-- A rectangular table: the shape shared by the `pandas.DataFrame` built
from the response, the CSV file written by `to_csv`, and the SQLite table
written by `to_sql`.  `colNames` are the column labels (for a frame built
from a list, the stringified range index `"0", "1", ...`). -/
structure Table where
  colNames : List String
  rows : List (List Cell)
deriving Repr

/-- Shape `DataFrame.shape`: `(number of rows, number of columns)`, as logged by
both sinks on success. -/
def Table.shape (t : Table) : Nat × Nat := (t.rows.length, t.colNames.length)

/-- Logging level used by the pipeline (`logger.info` / `logger.error`). -/
inductive LogLevel where
  | info : LogLevel
  | error : LogLevel
deriving DecidableEq, Repr

/-- The distinct log messages the pipeline can emit, one constructor per
`logger.…(f"…")` call site in `src/embed.py`.  The interpolated exception
text is a library `repr`; the constructor arguments keep the data the
f-string interpolates. -/
inductive LogMsg where
  /-- Source: `logger.error(f"HTTP Error: {errh}")` -/
  | httpError (code : Nat) : LogMsg
  /-- Source: `logger.error(f"Error Connecting: {errc}")` -/
  | errorConnecting : LogMsg
  /-- Source: `logger.error(f"Timeout Error: {errt}")` -/
  | timeoutError : LogMsg
  /-- Source: `logger.error(f"Request Exception: {err}")` -/
  | requestException : LogMsg
  /-- Source: `logger.info(f"Embeddings saved to {output_file}. Shape of embeddings: {…}")` -/
  | csvSaved (path : String) (shape : Nat × Nat) : LogMsg
  /-- Source: `logger.error(f"Failed to save embeddings to {output_file}: {…}")` -/
  | csvSaveFailed (path : String) : LogMsg
  /-- Source: `logger.info(f"Embeddings saved to database {db_file}. Shape of embeddings: {…}")` -/
  | dbSaved (path : String) (shape : Nat × Nat) : LogMsg
  /-- Source: `logger.error(f"Failed to save embeddings to database {db_file}: {…}")` -/
  | dbSaveFailed (path : String) : LogMsg
  /-- Source: `logger.error(f"Embedding query failed: {e}")` -/
  | embeddingQueryFailed (e : PyExn) : LogMsg
deriving DecidableEq, Repr

/-- One line appended to `log/pipeline.log`. -/
structure LogEntry where
  level : LogLevel
  msg : LogMsg
deriving DecidableEq, Repr

/-- The single outbound HTTP request built by
`run_feature_extraction_pipeline` (lines 25–37 of `src/embed.py`). -/
structure HttpRequest where
  method : String
  url : String
  headers : List (String × String)
  body : JVal
deriving Repr

/-- Behaviour of the remote endpoint / transport for one `requests.post`
call: either a response with a status code and JSON body, or one of the
transport failures `requests` raises. -/
inductive HttpOutcome where
  | response (code : Nat) (body : JVal) : HttpOutcome
  | connectionFailure : HttpOutcome
  | timeoutFailure : HttpOutcome
  | otherFailure : HttpOutcome
deriving Repr

/-- Python dict subscript `v[k]` with a string key: `KeyError` if the dict
lacks the key, `TypeError` if `v` is not a dict (string keys do not
subscript lists, strings, numbers, booleans or `None`). -/
def pySubscript (v : JVal) (k : String) : Except PyExn JVal :=
  match v with
  | .obj fields =>
    match fields.lookup k with
    | some x => .ok x
    | none => .error (.keyError k)
  | _ => .error .typeError

/-- Python iteration `for entry in v`: lists yield their elements, strings
their characters (as one-character strings), dicts their keys; numbers,
booleans and `None` raise `TypeError`. -/
def pyIter (v : JVal) : Except PyExn (List JVal) :=
  match v with
  | .arr xs => .ok xs
  | .str s => .ok (s.toList.map (fun c => .str (String.mk [c])))
  | .obj fields => .ok (fields.map (fun p => .str p.fst))
  | _ => .error .typeError

/-- The body of the list comprehension
`[entry["sentence"] for entry in …]`: subscripts each element left to
right, raising at the first element that fails. -/
def comprehendSentences : List JVal → Except PyExn (List JVal)
  | [] => .ok []
  | entry :: entries =>
    match pySubscript entry "sentence" with
    | .error e => .error e
    | .ok v =>
      match comprehendSentences entries with
      | .error e => .error e
      | .ok vs => .ok (v :: vs)

/-- Line 78 of `src/embed.py`:
`sentences = [entry["sentence"] for entry in texts["sentences"]]`.
Runs before the `try` block of `embedding_query`, so any `KeyError` /
`TypeError` it raises is not caught there. -/
def extractSentences (texts : JVal) : Except PyExn (List JVal) :=
  match pySubscript texts "sentences" with
  | .error e => .error e
  | .ok s =>
    match pyIter s with
    | .error e => .error e
    | .ok entries => comprehendSentences entries

/-- Lines 25–27: `api_url = f"https://api-inference.huggingface.co/pipeline/feature-extraction/{model_id}"`. -/
def apiUrl (model_id : String) : String :=
  "https://api-inference.huggingface.co/pipeline/feature-extraction/" ++ model_id

/-- Lines 28–31: the request headers. -/
def requestHeaders (hf_token : String) : List (String × String) :=
  [("Authorization", "Bearer " ++ hf_token), ("Content-Type", "application/json")]

/-- Line 36: the JSON body
`{"inputs": texts, "options": {"wait_for_model": True}}`. -/
def requestBody (texts : List JVal) : JVal :=
  .obj [("inputs", .arr texts), ("options", .obj [("wait_for_model", .bool true)])]

/-- Library model of `requests.post`: issues the request and either
returns the response (status code and parsed JSON body) or raises one of
the `requests` transport exceptions, according to the outside world's
behaviour. -/
def requests_post (outcome : HttpOutcome) : Except PyExn (Nat × JVal) :=
  match outcome with
  | .response code body => .ok (code, body)
  | .connectionFailure => .error .connectionError
  | .timeoutFailure => .error .timeout
  | .otherFailure => .error .requestException

/-- Library model of `Response.raise_for_status`: raises
`requests.exceptions.HTTPError` exactly for 4xx/5xx status codes. -/
def raise_for_status (code : Nat) : Except PyExn Unit :=
  if 400 ≤ code then .error (.httpError code) else .ok ()

/-- The `except` ladder of `run_feature_extraction_pipeline` (lines
40–51): maps each caught `requests` exception class to the one error line
it logs; exceptions outside the ladder would propagate unlogged. -/
def classifyRequestsError (e : PyExn) : Option LogMsg :=
  match e with
  | .httpError c => some (.httpError c)
  | .connectionError => some .errorConnecting
  | .timeout => some .timeoutError
  | .requestException => some .requestException
  | _ => none

/-- Lines 24–51 of `src/embed.py`: build the request, POST it,
`raise_for_status`, return `response.json()`; on any `requests` failure
log one classified error line and re-raise.  Returns the request it
issued, the log lines it appended, and its result. -/
def run_feature_extraction_pipeline (model_id hf_token : String)
    (texts : List JVal) (outcome : HttpOutcome) :
    HttpRequest × List LogEntry × Except PyExn JVal :=
  let req : HttpRequest :=
    { method := "POST"
      url := apiUrl model_id
      headers := requestHeaders hf_token
      body := requestBody texts }
  let attempt : Except PyExn JVal :=
    match requests_post outcome with
    | .error e => .error e
    | .ok (code, body) =>
      match raise_for_status code with
      | .error e => .error e
      | .ok _ => .ok body
  match attempt with
  | .ok v => (req, [], .ok v)
  | .error e =>
    match classifyRequestsError e with
    | some m => (req, [⟨.error, m⟩], .error e)
    | none => (req, [], .error e)

/-- Length of the longest inner list: the column count pandas gives a
frame built from a list of lists. -/
def maxLen (xss : List (List JVal)) : Nat :=
  xss.foldr (fun xs m => max xs.length m) 0

/-- One frame row built from one response element: the element's values,
padded on the right with `NaN` gaps up to the frame's width. -/
def padRow (w : Nat) (xs : List JVal) : List Cell :=
  xs.map Cell.val ++ List.replicate (w - xs.length) Cell.na

/-- Whether a JSON value is a list. -/
def JVal.isArr : JVal → Bool
  | .arr _ => true
  | _ => false

/-- The elements of a JSON list (`[]` on other values; only applied under
an `isArr` guard). -/
def JVal.asArr : JVal → List JVal
  | .arr xs => xs
  | _ => []

/-- Library model of the `pandas.DataFrame` constructor on a parsed JSON
value (line 82: `embeddings = pd.DataFrame(output)`), for the shapes the
pipeline can receive: a list of lists becomes one row per element with
shorter rows padded by `NaN` gaps and a stringified range index as column
labels; a list of non-list values becomes a single column with one row
per element.  Other shapes (a bare scalar, a mixed list) are not produced
by the feature-extraction endpoint and are modelled as the constructor's
`ValueError`. -/
def pd_DataFrame (v : JVal) : Except PyExn Table :=
  match v with
  | .arr xs =>
    if xs.all JVal.isArr then
      let inner := xs.map JVal.asArr
      let w := maxLen inner
      .ok { colNames := (List.range w).map toString
            rows := inner.map (padRow w) }
    else if xs.all (fun x => ! x.isArr) then
      .ok { colNames := ["0"], rows := xs.map (fun x => [Cell.val x]) }
    else
      .error .valueError
  | _ => .error .valueError

/-- The CSV file written by `to_csv`: a header row of column names
followed by the data rows (cell serialisation kept abstract). -/
structure CsvFile where
  header : List String
  body : List (List Cell)
deriving Repr

/-- A table with a leading index column named `name` (what pandas writes
when `index=True`); the source always passes `index=False`, so this is
what both sinks avoid. -/
def Table.withIndexCol (t : Table) (name : String) : Table :=
  { colNames := name :: t.colNames
    rows := (List.range t.rows.length).zip t.rows |>.map
      (fun p => Cell.val (.num p.fst) :: p.snd) }

/-- Library model of `DataFrame.to_csv(output_file, index=index)`:
overwrites the file with the frame (plus an unnamed index column when
`index` is true), or raises `OSError` when the path is unwritable. -/
def df_to_csv (df : Table) (index : Bool) (writeOk : Bool) :
    Except PyExn CsvFile :=
  if writeOk then
    let t := if index then df.withIndexCol "" else df
    .ok { header := t.colNames, body := t.rows }
  else
    .error .oserror

/-- What `save_embeddings_to_csv` produces: its log lines, the file it
wrote (if any), and what it raises to its caller. -/
structure CsvResult where
  logs : List LogEntry
  file : Option CsvFile
  outcome : Except PyExn Unit
deriving Repr

/-- Lines 54–59 of `src/embed.py`: `embeddings.to_csv(output_file,
index=False)` then an info line with the shape, inside
`try … except Exception` that logs the failure and swallows it. -/
def save_embeddings_to_csv (embeddings : Table) (output_file : String)
    (writeOk : Bool) : CsvResult :=
  match df_to_csv embeddings false writeOk with
  | .ok f =>
    { logs := [⟨.info, .csvSaved output_file embeddings.shape⟩]
      file := some f
      outcome := .ok () }
  | .error _ =>
    { logs := [⟨.error, .csvSaveFailed output_file⟩]
      file := none
      outcome := .ok () }

/-- Library model of `sqlite3.connect(db_file)`: opens (or creates) the
database file, raising `sqlite3.OperationalError` when the file cannot be
opened (e.g. its directory does not exist).  The connection handle
carries no data the model needs. -/
def sqlite3_connect (connectOk : Bool) : Except PyExn Unit :=
  if connectOk then .ok () else .error .sqliteError

/-- Library model of `DataFrame.to_sql('embeddings', conn,
if_exists='replace', index=index)`: fully replaces the `embeddings` table
with the frame (plus an `index` column when `index` is true), or raises on
a database error.  Returns the new table contents. -/
def df_to_sql (df : Table) (index : Bool) (writeOk : Bool) :
    Except PyExn Table :=
  if writeOk then .ok (if index then df.withIndexCol "index" else df)
  else .error .sqliteError

/-- What `save_embeddings_to_db` produces: its log lines, the resulting
`embeddings` table in the database file, whether the connection was
closed, and what it raises to its caller. -/
structure DbResult where
  logs : List LogEntry
  table : Option Table
  connClosed : Bool
  outcome : Except PyExn Unit
deriving Repr

/-- Lines 62–71 of `src/embed.py`, statement by statement:

```
try:
    conn = sqlite3.connect(db_file)
    embeddings.to_sql('embeddings', conn, if_exists='replace', index=False)
    logger.info(…)
except Exception as e:
    logger.error(f"Failed to save embeddings to database …")
finally:
    if conn:
        conn.close()
```

The local `conn` is bound only if `sqlite3.connect` returned; when
`connect` itself raised, the `finally` block's `if conn:` references an
unbound local and raises `UnboundLocalError`, which propagates to the
caller (a `finally`-raised exception replaces any handled one).  A bound
sqlite3 connection object is always truthy, so otherwise `conn.close()`
runs.  `prev` is the `embeddings` table already in the database file. -/
def save_embeddings_to_db (embeddings : Table) (db_file : String)
    (connectOk writeOk : Bool) (prev : Option Table) : DbResult :=
  let step : List LogEntry × Option Unit × Option Table :=
    match sqlite3_connect connectOk with
    | .error _ =>
      ([⟨.error, .dbSaveFailed db_file⟩], none, prev)
    | .ok c =>
      match df_to_sql embeddings false writeOk with
      | .error _ => ([⟨.error, .dbSaveFailed db_file⟩], some c, prev)
      | .ok t =>
        ([⟨.info, .dbSaved db_file embeddings.shape⟩], some c, some t)
  match step with
  | (logs, some _, table) =>
    { logs := logs, table := table, connClosed := true, outcome := .ok () }
  | (logs, none, table) =>
    { logs := logs, table := table, connClosed := false
      outcome := .error (.unboundLocalError "conn") }

/-- The outside world one run of `embedding_query` interacts with:
the outcome of opening and JSON-parsing the input file, the HTTP
behaviour, whether each sink's write succeeds, and the `embeddings`
table already present in the database file. -/
structure PipelineEnv where
  fileContent : Except PyExn JVal
  httpOutcome : HttpOutcome
  csvOk : Bool
  dbConnectOk : Bool
  dbWriteOk : Bool
  dbTable0 : Option Table

/-- Everything observable about one run of `embedding_query`: the log,
the requests issued, the CSV file written (if any), the resulting
`embeddings` table, and what the call raises to `main` (`.ok ()` when it
returns normally, i.e. the process exits successfully). -/
structure RunResult where
  logs : List LogEntry
  requests : List HttpRequest
  csvFile : Option CsvFile
  dbTable : Option Table
  outcome : Except PyExn Unit

/-- Lines 74–87 of `src/embed.py`.  The file open / `json.load` and the
sentence extraction run before the `try` block, so their exceptions
propagate uncaught, with no request issued and no sink touched.  Inside
`try … except Exception`, the pipeline call, the frame construction and
the two sinks run in order; any exception among them is logged as
`Embedding query failed` and swallowed, so `embedding_query` itself never
raises from that region. -/
def embedding_query (model_id hf_token output_file db_file : String)
    (env : PipelineEnv) : RunResult :=
  match env.fileContent with
  | .error e =>
    { logs := [], requests := [], csvFile := none
      dbTable := env.dbTable0, outcome := .error e }
  | .ok texts =>
    match extractSentences texts with
    | .error e =>
      { logs := [], requests := [], csvFile := none
        dbTable := env.dbTable0, outcome := .error e }
    | .ok sentences =>
      let (req, clientLogs, clientResult) :=
        run_feature_extraction_pipeline model_id hf_token sentences
          env.httpOutcome
      match clientResult with
      | .error e =>
        { logs := clientLogs ++ [⟨.error, .embeddingQueryFailed e⟩]
          requests := [req], csvFile := none
          dbTable := env.dbTable0, outcome := .ok () }
      | .ok output =>
        match pd_DataFrame output with
        | .error e =>
          { logs := clientLogs ++ [⟨.error, .embeddingQueryFailed e⟩]
            requests := [req], csvFile := none
            dbTable := env.dbTable0, outcome := .ok () }
        | .ok embeddings =>
          let csvR := save_embeddings_to_csv embeddings output_file env.csvOk
          match csvR.outcome with
          | .error e =>
            { logs := clientLogs ++ csvR.logs ++
                [⟨.error, .embeddingQueryFailed e⟩]
              requests := [req], csvFile := csvR.file
              dbTable := env.dbTable0, outcome := .ok () }
          | .ok _ =>
            let dbR := save_embeddings_to_db embeddings db_file
              env.dbConnectOk env.dbWriteOk env.dbTable0
            match dbR.outcome with
            | .error e =>
              { logs := clientLogs ++ csvR.logs ++ dbR.logs ++
                  [⟨.error, .embeddingQueryFailed e⟩]
                requests := [req], csvFile := csvR.file
                dbTable := dbR.table, outcome := .ok () }
            | .ok _ =>
              { logs := clientLogs ++ csvR.logs ++ dbR.logs
                requests := [req], csvFile := csvR.file
                dbTable := dbR.table, outcome := .ok () }

/-- A canonical well-formed input file for `n` sentences: a JSON object
whose key `"sentences"` maps to a list of records each with key
`"sentence"` mapping to a string, in file order. -/
def inputFile (ss : List String) : JVal :=
  .obj [("sentences", .arr (ss.map (fun s => .obj [("sentence", .str s)])))]

/-- Concrete run fixture for the HTTP-500 scenario: a well-formed
one-sentence input file, a server answering status 500, writable sinks,
empty database. -/
def envC1 : PipelineEnv :=
  { fileContent := .ok (inputFile ["hello"])
    httpOutcome := .response 500 .null
    csvOk := true, dbConnectOk := true, dbWriteOk := true, dbTable0 := none }

/-- Concrete run fixture for the failing-CSV scenario: a well-formed
one-sentence input file, a successful response of one two-dimensional
vector, an unwritable CSV path, a working database. -/
def envC2 : PipelineEnv :=
  { fileContent := .ok (inputFile ["hello"])
    httpOutcome := .response 200 (.arr [.arr [.num 1, .num 2]])
    csvOk := false, dbConnectOk := true, dbWriteOk := true, dbTable0 := none }

/-- The frame assembled from the response of `envC2`. -/
def dfC2 : Table :=
  { colNames := ["0", "1"], rows := [[Cell.val (.num 1), Cell.val (.num 2)]] }

/-- Concrete run fixture whose input file parses but lacks the expected
keys: the JSON object is empty, so `texts["sentences"]` raises
`KeyError`. -/
def envC8 : PipelineEnv :=
  { fileContent := .ok (.obj []), httpOutcome := .response 200 .null,
    csvOk := true, dbConnectOk := true, dbWriteOk := true, dbTable0 := none }

/-- Concrete run fixture for the outbound-request check: a well-formed
two-sentence input file and a fully successful run. -/
def envC6 : PipelineEnv :=
  { fileContent := .ok (inputFile ["good morning", "good night"])
    httpOutcome := .response 200 (.arr [.arr [.num 1], .arr [.num 2]])
    csvOk := true, dbConnectOk := true, dbWriteOk := true, dbTable0 := none }

/-- Concrete run fixture for the dual-sink check: a well-formed
two-sentence input file, a successful response of two one-dimensional
vectors, both sinks succeeding. -/
def envC10 : PipelineEnv :=
  { fileContent := .ok (inputFile ["hello", "world"])
    httpOutcome := .response 200 (.arr [.arr [.num 1], .arr [.num 2]])
    csvOk := true, dbConnectOk := true, dbWriteOk := true, dbTable0 := none }

/-- The frame assembled from the response of `envC10`. -/
def dfC10 : Table :=
  { colNames := ["0"], rows := [[Cell.val (.num 1)], [Cell.val (.num 2)]] }

lemma comprehendSentences_map (ss : List String) :
    comprehendSentences (ss.map (fun s => JVal.obj [("sentence", JVal.str s)])) =
      Except.ok (ss.map JVal.str) := by
  induction ss with
  | nil => rfl
  | cons s ss ih =>
    simp only [List.map_cons, comprehendSentences, pySubscript, List.lookup, ih]
    rfl

lemma extractSentences_inputFile (ss : List String) :
    extractSentences (inputFile ss) = .ok (ss.map JVal.str) := by
  simp [extractSentences, inputFile, pySubscript, pyIter, List.lookup,
    comprehendSentences_map]

lemma length_le_maxLen {xss : List (List JVal)} {row : List JVal}
    (h : row ∈ xss) : row.length ≤ maxLen xss := by
  induction xss with
  | nil => cases h
  | cons x xs ih =>
    rcases List.mem_cons.mp h with h | h
    · subst h
      simp [maxLen]
    · calc row.length ≤ maxLen xs := ih h
        _ ≤ maxLen (x :: xs) := by simp [maxLen]

lemma embedding_query_success (model_id hf_token output_file db_file : String)
    (env : PipelineEnv) (ss : List String) (code : Nat) (body : JVal)
    (df : Table)
    (hfile : env.fileContent = .ok (inputFile ss))
    (hhttp : env.httpOutcome = .response code body)
    (hcode : code < 400)
    (hdf : pd_DataFrame body = .ok df)
    (hconn : env.dbConnectOk = true) :
    embedding_query model_id hf_token output_file db_file env =
      { logs := (save_embeddings_to_csv df output_file env.csvOk).logs ++
          (save_embeddings_to_db df db_file true env.dbWriteOk
            env.dbTable0).logs
        requests := [{ method := "POST"
                       url := apiUrl model_id
                       headers := requestHeaders hf_token
                       body := requestBody (ss.map JVal.str) }]
        csvFile := (save_embeddings_to_csv df output_file env.csvOk).file
        dbTable := (save_embeddings_to_db df db_file true env.dbWriteOk
          env.dbTable0).table
        outcome := .ok () } := by
  obtain ⟨fc, ho, csvOk, dbc, dbw, t0⟩ := env
  dsimp only at hfile hhttp hconn ⊢
  subst hfile hhttp hconn
  have hns : ¬ 400 ≤ code := by omega
  cases csvOk <;> cases dbw <;>
    simp [embedding_query, extractSentences_inputFile,
      run_feature_extraction_pipeline, requests_post, raise_for_status, hns,
      hdf, save_embeddings_to_csv, df_to_csv, save_embeddings_to_db,
      sqlite3_connect, df_to_sql]

/-- Claim C1, as stated, is false on the code: on a run whose embedding
request gets an HTTP 500 response, `embedding_query` returns normally
(`outcome = .ok ()`), because its `except Exception` block catches the
re-raised `HTTPError`, logs `Embedding query failed`, and swallows it —
the failure does not propagate out of the pipeline and the run does not
terminate as an uncaught process failure.  (No sink output is produced,
as the claim also says.) -/
theorem claim_C1_counterexample :
    (embedding_query "bert" "tok" "out.csv" "emb.db" envC1).outcome =
      .ok () ∧
    (embedding_query "bert" "tok" "out.csv" "emb.db" envC1).csvFile = none ∧
    (embedding_query "bert" "tok" "out.csv" "emb.db" envC1).dbTable = none ∧
    (embedding_query "bert" "tok" "out.csv" "emb.db" envC1).logs =
      [⟨.error, .httpError 500⟩,
       ⟨.error, .embeddingQueryFailed (.httpError 500)⟩] :=
  ⟨rfl, rfl, rfl, rfl⟩

/-- Claim C1, amended: for every run with a well-formed input file whose
embedding request gets a 4xx/5xx response, the HTTP error is logged by
the embedding client and re-raised, but `embedding_query` catches it,
logs an `Embedding query failed` entry and swallows it: the run completes
normally (no uncaught process failure) and no sink output is produced
(no CSV file is written and the database table is left unchanged). -/
theorem claim_C1_amended (model_id hf_token output_file db_file : String)
    (env : PipelineEnv) (ss : List String) (code : Nat) (body : JVal)
    (hfile : env.fileContent = .ok (inputFile ss))
    (hhttp : env.httpOutcome = .response code body)
    (hcode : 400 ≤ code) :
    (embedding_query model_id hf_token output_file db_file env).logs =
      [⟨.error, .httpError code⟩,
       ⟨.error, .embeddingQueryFailed (.httpError code)⟩] ∧
    (embedding_query model_id hf_token output_file db_file env).outcome =
      .ok () ∧
    (embedding_query model_id hf_token output_file db_file env).csvFile =
      none ∧
    (embedding_query model_id hf_token output_file db_file env).dbTable =
      env.dbTable0 := by
  obtain ⟨fc, ho, c, dc, dw, t0⟩ := env
  dsimp only at hfile hhttp ⊢
  subst hfile hhttp
  simp [embedding_query, extractSentences_inputFile,
    run_feature_extraction_pipeline, requests_post, raise_for_status, hcode,
    classifyRequestsError]

/-- Witness for the amended claim C1 at the concrete HTTP-500 run. -/
theorem claim_C1_witness :
    (embedding_query "bert" "tok" "out.csv" "emb.db" envC1).logs =
      [⟨.error, .httpError 500⟩,
       ⟨.error, .embeddingQueryFailed (.httpError 500)⟩] ∧
    (embedding_query "bert" "tok" "out.csv" "emb.db" envC1).outcome =
      .ok () ∧
    (embedding_query "bert" "tok" "out.csv" "emb.db" envC1).csvFile = none ∧
    (embedding_query "bert" "tok" "out.csv" "emb.db" envC1).dbTable = none :=
  claim_C1_amended "bert" "tok" "out.csv" "emb.db" envC1 ["hello"] 500 .null
    rfl rfl (by norm_num)

/-- Claim C2: on a run whose CSV write fails while the database is
reachable and writable, the CSV sink logs the error and swallows it
(`save_embeddings_to_csv` raises nothing to its caller), the database
sink is still invoked and completes (the `embeddings` table holds the
assembled frame, and its success line is logged after the CSV error
line), and the whole run returns normally. -/
theorem claim_C2 (model_id hf_token output_file db_file : String)
    (env : PipelineEnv) (ss : List String) (code : Nat) (body : JVal)
    (df : Table)
    (hfile : env.fileContent = .ok (inputFile ss))
    (hhttp : env.httpOutcome = .response code body)
    (hcode : code < 400)
    (hdf : pd_DataFrame body = .ok df)
    (hcsv : env.csvOk = false)
    (hconn : env.dbConnectOk = true)
    (hwrite : env.dbWriteOk = true) :
    (save_embeddings_to_csv df output_file false).outcome = .ok () ∧
    (embedding_query model_id hf_token output_file db_file env).logs =
      [⟨.error, .csvSaveFailed output_file⟩,
       ⟨.info, .dbSaved db_file df.shape⟩] ∧
    (embedding_query model_id hf_token output_file db_file env).dbTable =
      some df ∧
    (embedding_query model_id hf_token output_file db_file env).outcome =
      .ok () := by
  have h := embedding_query_success model_id hf_token output_file db_file env
    ss code body df hfile hhttp hcode hdf hconn
  rw [hcsv, hwrite] at h
  rw [h]
  exact ⟨rfl, rfl, rfl, rfl⟩

/-- Witness for claim C2 at the concrete failing-CSV run `envC2`. -/
theorem claim_C2_witness :
    (save_embeddings_to_csv dfC2 "out.csv" false).outcome = .ok () ∧
    (embedding_query "bert" "tok" "out.csv" "emb.db" envC2).logs =
      [⟨.error, .csvSaveFailed "out.csv"⟩,
       ⟨.info, .dbSaved "emb.db" (1, 2)⟩] ∧
    (embedding_query "bert" "tok" "out.csv" "emb.db" envC2).dbTable =
      some dfC2 ∧
    (embedding_query "bert" "tok" "out.csv" "emb.db" envC2).outcome =
      .ok () :=
  claim_C2 "bert" "tok" "out.csv" "emb.db" envC2 ["hello"] 200
    (.arr [.arr [.num 1, .num 2]]) dfC2 rfl rfl (by norm_num) rfl rfl rfl rfl

/-- Claim C3 names a real bug in the code: `save_embeddings_to_db` is
meant to log-and-swallow every failure and always close the connection
(the `finally: if conn:` guard shows that intent), but when
`sqlite3.connect` itself raises — e.g. a database path in a directory
that does not exist — the local `conn` was never assigned, so the
`finally` block's `if conn:` raises `UnboundLocalError`, which propagates
to the caller after the error was logged; no connection exists to be
closed.  This theorem evaluates the sink at such a failing input. -/
theorem claim_C3_bug :
    (save_embeddings_to_db { colNames := ["0"], rows := [[Cell.val (.num 1)]] }
        "/data/no-such-dir/embeddings.db" false true none).outcome =
      .error (.unboundLocalError "conn") ∧
    (save_embeddings_to_db { colNames := ["0"], rows := [[Cell.val (.num 1)]] }
        "/data/no-such-dir/embeddings.db" false true none).connClosed =
      false ∧
    (save_embeddings_to_db { colNames := ["0"], rows := [[Cell.val (.num 1)]] }
        "/data/no-such-dir/embeddings.db" false true none).logs =
      [⟨.error, .dbSaveFailed "/data/no-such-dir/embeddings.db"⟩] :=
  ⟨rfl, rfl, rfl⟩

/-- Claim C4: whenever the assembler succeeds on a successful API
response that is a list of M top-level elements, the table has exactly M
rows — so with one vector per input sentence the table has N rows for N
sentences, and with fewer response elements than sentences the row count
equals the response length; and on any list of vectors the assembler
does succeed. -/
theorem claim_C4 (xs : List JVal) :
    (∀ t, pd_DataFrame (.arr xs) = .ok t → t.rows.length = xs.length) ∧
    (xs.all JVal.isArr = true →
      ∃ t, pd_DataFrame (.arr xs) = .ok t ∧ t.rows.length = xs.length) := by
  constructor
  · intro t ht
    by_cases h1 : xs.all JVal.isArr
    · simp only [pd_DataFrame, h1, if_pos] at ht
      cases ht
      simp
    · by_cases h2 : xs.all (fun x => ! x.isArr)
      · simp only [pd_DataFrame, h1, h2, if_pos, if_neg,
          Bool.false_eq_true] at ht
        cases ht
        simp
      · simp [pd_DataFrame, h1, h2] at ht
  · intro h1
    have hd : pd_DataFrame (.arr xs) =
        .ok { colNames :=
                (List.range (maxLen (xs.map JVal.asArr))).map toString,
              rows :=
                (xs.map JVal.asArr).map
                  (padRow (maxLen (xs.map JVal.asArr))) } := by
      simp only [pd_DataFrame, h1, if_pos]
    exact ⟨_, hd, by simp⟩

/-- Witness for claim C4: a two-vector response yields a two-row table. -/
theorem claim_C4_witness :
    ∃ t, pd_DataFrame (.arr [.arr [.num 1], .arr [.num 2, .num 3]]) = .ok t ∧
      t.rows.length = 2 :=
  (claim_C4 [.arr [.num 1], .arr [.num 2, .num 3]]).2 rfl

/-- Claim C5: on each of the four failure classes of the embedding
request — HTTP status error, connection failure, timeout, catch-all
request exception — `run_feature_extraction_pipeline` writes exactly one
classified error line to the log and re-raises the same failure to its
caller, and the four log messages are pairwise distinct. -/
theorem claim_C5 (model_id hf_token : String) (texts : List JVal) :
    (∀ code body, 400 ≤ code →
      (run_feature_extraction_pipeline model_id hf_token texts
          (.response code body)).2 =
        ([⟨.error, .httpError code⟩], .error (.httpError code))) ∧
    (run_feature_extraction_pipeline model_id hf_token texts
        .connectionFailure).2 =
      ([⟨.error, .errorConnecting⟩], .error .connectionError) ∧
    (run_feature_extraction_pipeline model_id hf_token texts
        .timeoutFailure).2 =
      ([⟨.error, .timeoutError⟩], .error .timeout) ∧
    (run_feature_extraction_pipeline model_id hf_token texts
        .otherFailure).2 =
      ([⟨.error, .requestException⟩], .error .requestException) ∧
    (∀ code : Nat,
      LogMsg.httpError code ≠ .errorConnecting ∧
      LogMsg.httpError code ≠ .timeoutError ∧
      LogMsg.httpError code ≠ .requestException) ∧
    LogMsg.errorConnecting ≠ .timeoutError ∧
    LogMsg.errorConnecting ≠ .requestException ∧
    LogMsg.timeoutError ≠ .requestException := by
  refine ⟨?_, rfl, rfl, rfl, ?_, by simp, by simp, by simp⟩
  · intro code body h
    simp [run_feature_extraction_pipeline, requests_post, raise_for_status, h,
      classifyRequestsError]
  · intro code
    exact ⟨by simp, by simp, by simp⟩

/-- Witness for claim C5 at a concrete HTTP 500 response. -/
theorem claim_C5_witness :
    (run_feature_extraction_pipeline "bert-base-uncased" "tok" []
        (.response 500 .null)).2 =
      ([⟨.error, .httpError 500⟩], .error (.httpError 500)) :=
  (claim_C5 "bert-base-uncased" "tok" []).1 500 .null (by norm_num)

/-- Claim C6: for every run whose input file is the well-formed JSON
object with key `sentences` mapping to records with key `sentence`, the
pipeline issues exactly one POST request, to
`https://api-inference.huggingface.co/pipeline/feature-extraction/<model_id>`,
with the `Authorization: Bearer <token>` header and JSON body
`{"inputs": <the sentence strings in file order>,
"options": {"wait_for_model": true}}` — whatever the network outcome and
sink outcomes. -/
theorem claim_C6 (model_id hf_token output_file db_file : String)
    (env : PipelineEnv) (ss : List String)
    (hfile : env.fileContent = .ok (inputFile ss)) :
    (embedding_query model_id hf_token output_file db_file env).requests =
      [{ method := "POST"
         url := "https://api-inference.huggingface.co/pipeline/feature-extraction/"
           ++ model_id
         headers := [("Authorization", "Bearer " ++ hf_token),
           ("Content-Type", "application/json")]
         body := .obj [("inputs", .arr (ss.map JVal.str)),
           ("options", .obj [("wait_for_model", .bool true)])] }] := by
  obtain ⟨fc, ho, c, dc, dw, t0⟩ := env
  dsimp only at hfile ⊢
  subst hfile
  cases ho with
  | response code body =>
    by_cases h : 400 ≤ code
    · simp [embedding_query, extractSentences_inputFile,
        run_feature_extraction_pipeline, requests_post, raise_for_status, h,
        classifyRequestsError, apiUrl, requestHeaders, requestBody]
    · cases hdf : pd_DataFrame body with
      | error e =>
        simp [embedding_query, extractSentences_inputFile,
          run_feature_extraction_pipeline, requests_post, raise_for_status, h,
          hdf, apiUrl, requestHeaders, requestBody]
      | ok df =>
        cases c <;> cases dc <;> cases dw <;>
          simp [embedding_query, extractSentences_inputFile,
            run_feature_extraction_pipeline, requests_post, raise_for_status,
            h, hdf, save_embeddings_to_csv, df_to_csv, save_embeddings_to_db,
            sqlite3_connect, df_to_sql, apiUrl, requestHeaders, requestBody]
  | connectionFailure =>
    simp [embedding_query, extractSentences_inputFile,
      run_feature_extraction_pipeline, requests_post, classifyRequestsError,
      apiUrl, requestHeaders, requestBody]
  | timeoutFailure =>
    simp [embedding_query, extractSentences_inputFile,
      run_feature_extraction_pipeline, requests_post, classifyRequestsError,
      apiUrl, requestHeaders, requestBody]
  | otherFailure =>
    simp [embedding_query, extractSentences_inputFile,
      run_feature_extraction_pipeline, requests_post, classifyRequestsError,
      apiUrl, requestHeaders, requestBody]

/-- Witness for claim C6 at the concrete two-sentence run `envC6`. -/
theorem claim_C6_witness :
    (embedding_query "bert-base-uncased" "hf_abc" "out.csv" "emb.db"
        envC6).requests =
      [{ method := "POST"
         url := "https://api-inference.huggingface.co/pipeline/feature-extraction/bert-base-uncased"
         headers := [("Authorization", "Bearer hf_abc"),
           ("Content-Type", "application/json")]
         body := .obj
           [("inputs", .arr [.str "good morning", .str "good night"]),
            ("options", .obj [("wait_for_model", .bool true)])] }] :=
  claim_C6 "bert-base-uncased" "hf_abc" "out.csv" "emb.db" envC6
    ["good morning", "good night"] rfl

/-- Claim C7: when the database sink succeeds (connection and write both
succeed), the `embeddings` table afterwards is exactly the assembled
frame, whatever was in the table before — `if_exists='replace'`
drop-and-recreate semantics, no append — so running the sink a second
time with the same frame leaves the table unchanged: two consecutive
runs give the same table as one. -/
theorem claim_C7 (df : Table) (db_file : String) (prev : Option Table) :
    (save_embeddings_to_db df db_file true true prev).table = some df ∧
    (save_embeddings_to_db df db_file true true prev).outcome = .ok () ∧
    (save_embeddings_to_db df db_file true true
        (save_embeddings_to_db df db_file true true prev).table).table =
      (save_embeddings_to_db df db_file true true prev).table :=
  ⟨rfl, rfl, rfl⟩

/-- Claim C8: when the input file is missing, unreadable, malformed JSON,
or lacks the `sentences` / `sentence` keys, the resulting exception
propagates out of `embedding_query` unhandled, with an empty log, no HTTP
request issued, no CSV file written and the database table untouched. -/
theorem claim_C8 (model_id hf_token output_file db_file : String)
    (env : PipelineEnv) :
    (∀ e, env.fileContent = .error e →
      embedding_query model_id hf_token output_file db_file env =
        { logs := [], requests := [], csvFile := none,
          dbTable := env.dbTable0, outcome := .error e }) ∧
    (∀ j e, env.fileContent = .ok j → extractSentences j = .error e →
      embedding_query model_id hf_token output_file db_file env =
        { logs := [], requests := [], csvFile := none,
          dbTable := env.dbTable0, outcome := .error e }) := by
  constructor
  · intro e he
    simp [embedding_query, he]
  · intro j e hj hex
    simp [embedding_query, hj, hex]

/-- Witness for claim C8: an input file that parses to an empty JSON
object raises `KeyError("sentences")` out of the run, with no request
and no sink output. -/
theorem claim_C8_witness :
    embedding_query "bert-base-uncased" "tok" "out.csv" "emb.db" envC8 =
      { logs := [], requests := [], csvFile := none, dbTable := none,
        outcome := .error (.keyError "sentences") } :=
  (claim_C8 "bert-base-uncased" "tok" "out.csv" "emb.db" envC8).2
    (.obj []) (.keyError "sentences") rfl rfl

/-- Claim C9: on a ragged list-of-lists response the assembler does not
fail: every top-level element becomes a row padded with absent values
(`Cell.na`) up to the longest row's length (`padRow` appends
`maxLen xss - row.length` gaps), and every padded row has exactly that
length. -/
theorem claim_C9 (xss : List (List JVal)) :
    pd_DataFrame (.arr (xss.map JVal.arr)) =
      .ok { colNames := (List.range (maxLen xss)).map toString,
            rows := xss.map (padRow (maxLen xss)) } ∧
    ∀ row ∈ xss, (padRow (maxLen xss) row).length = maxLen xss := by
  have hall : (xss.map JVal.arr).all JVal.isArr = true := by
    simp [List.all_eq_true, JVal.isArr]
  have hback : (xss.map JVal.arr).map JVal.asArr = xss := by
    simp [List.map_map, Function.comp_def, JVal.asArr]
  constructor
  · simp only [pd_DataFrame, hall, if_pos, hback]
  · intro row hrow
    simp [padRow, Nat.add_sub_cancel' (length_le_maxLen hrow)]

/-- Witness for claim C9 at a concrete ragged response: the shorter row
is padded with a gap. -/
theorem claim_C9_witness :
    pd_DataFrame (.arr [.arr [.num 1, .num 2], .arr [.num 3]]) =
      .ok { colNames := ["0", "1"],
            rows := [[Cell.val (.num 1), Cell.val (.num 2)],
                     [Cell.val (.num 3), Cell.na]] } :=
  (claim_C9 [[JVal.num 1, JVal.num 2], [JVal.num 3]]).1

/-- Claim C10: on a run where both sinks succeed, the CSV file and the
`embeddings` database table are written from the identical assembled
frame `df`: the CSV file is the frame's column names and rows with no
index column, and the database table is the frame itself (not the
index-augmented variant `Table.withIndexCol`), so both outputs hold the
same rows, columns and values. -/
theorem claim_C10 (model_id hf_token output_file db_file : String)
    (env : PipelineEnv) (ss : List String) (code : Nat) (body : JVal)
    (df : Table)
    (hfile : env.fileContent = .ok (inputFile ss))
    (hhttp : env.httpOutcome = .response code body)
    (hcode : code < 400)
    (hdf : pd_DataFrame body = .ok df)
    (hcsv : env.csvOk = true)
    (hconn : env.dbConnectOk = true)
    (hwrite : env.dbWriteOk = true) :
    (embedding_query model_id hf_token output_file db_file env).csvFile =
      some { header := df.colNames, body := df.rows } ∧
    (embedding_query model_id hf_token output_file db_file env).dbTable =
      some df ∧
    (embedding_query model_id hf_token output_file db_file env).outcome =
      .ok () := by
  have h := embedding_query_success model_id hf_token output_file db_file env
    ss code body df hfile hhttp hcode hdf hconn
  rw [hcsv, hwrite] at h
  rw [h]
  exact ⟨rfl, rfl, rfl⟩

/-- Witness for claim C10 at the concrete fully successful run `envC10`. -/
theorem claim_C10_witness :
    (embedding_query "bert" "tok" "out.csv" "emb.db" envC10).csvFile =
      some { header := dfC10.colNames, body := dfC10.rows } ∧
    (embedding_query "bert" "tok" "out.csv" "emb.db" envC10).dbTable =
      some dfC10 ∧
    (embedding_query "bert" "tok" "out.csv" "emb.db" envC10).outcome =
      .ok () :=
  claim_C10 "bert" "tok" "out.csv" "emb.db" envC10 ["hello", "world"] 200
    (.arr [.arr [.num 1], .arr [.num 2]]) dfC10 rfl rfl (by norm_num)
    rfl rfl rfl rfl
